import Mathlib

/-!
Verification development for the `BlockingProvider` adapter of
`evm-adapters/src/blocking_provider.rs`: a blocking wrapper around an
asynchronous Ethers middleware, driven by an optionally owned tokio runtime.

The middleware is modelled as a record of deterministic call tables returning
`Except ε α` (the client's own error type `ε` for `M::Error`).  `tokio::try_join!`
is modelled by fail-fast left-to-right sequencing of the already-resolved
sub-request results; `eyre::Result` is modelled by the error type `EyreError ε`,
whose `client` constructor carries a pass-through client error and whose
`blockNotFound` constructor is the error synthesized by `block_and_chainid`.
The tokio runtime is modelled by an identity token so that freshness of
`Runtime::new()` across `new`/`clone` is expressible: a counter supplies the
next identity, mirroring that each `Runtime::new()` yields a distinct instance.
-/

set_option autoImplicit false

namespace EvmAdapters

/-- 256-bit unsigned integer payload (`ethers::types::U256`); opaque here. -/
abbrev U256 := Nat

/-- 64-bit unsigned integer payload (`ethers::types::U64`); opaque here. -/
abbrev U64 := Nat

/-- 256-bit hash payload (`ethers::types::H256`); opaque here. -/
abbrev H256 := Nat

/-- Account address payload (`ethers::types::Address`); opaque here. -/
abbrev Address := Nat

/-- Contract bytecode payload (`ethers::types::Bytes`); opaque here. -/
abbrev Bytes := List Nat

/-- `ethers::prelude::BlockNumber`: a symbolic or concrete block number. -/
inductive BlockNumber where
  | latest
  | earliest
  | pending
  | number (n : U64)
deriving DecidableEq, Repr

/-- `ethers::types::BlockId`: a block referenced by hash or by number. -/
inductive BlockId where
  | hash (h : H256)
  | number (n : BlockNumber)
deriving DecidableEq, Repr

/-- `ethers::types::Block<TxHash>`: an opaque block payload, passed through. -/
structure Block where
  hash : H256
deriving DecidableEq, Repr

/-- The asynchronous RPC client (`ethers::providers::Middleware`), modelled as
a record of deterministic call tables; `ε` is the client error type `M::Error`.
Each field returns the resolved result of the corresponding client future. -/
structure Middleware (ε : Type) where
  get_block : BlockId → Except ε (Option Block)
  get_chainid : Except ε U256
  get_balance : Address → Option BlockId → Except ε U256
  get_transaction_count : Address → Option BlockId → Except ε U256
  get_code : Address → Option BlockId → Except ε Bytes
  get_block_number : Except ε U64
  get_storage_at : Address → H256 → Option BlockId → Except ε H256

/-- A tokio `Runtime` instance, identified by a creation token so that
distinctness of separately created runtimes is expressible. -/
structure Runtime where
  id : Nat
deriving DecidableEq, Repr

/-- `Runtime::new()`: consumes the next creation token, producing a runtime
distinct from every previously created one. -/
def Runtime.new (c : Nat) : Runtime × Nat :=
  (⟨c⟩, c + 1)

/-- The blocking wrapper: an RPC client handle plus an optionally owned
runtime (`provider: M, runtime: Option<Runtime>`). -/
structure BlockingProvider (ε : Type) where
  provider : Middleware ε
  runtime : Option Runtime

/-- `BlockingProvider::new`: `handle_current_ok` models whether
`Handle::try_current()` succeeds, i.e. whether an ambient tokio scheduler is
already active in the calling context; a runtime is created (consuming a fresh
token) exactly when it is not (`is_err().then(|| Runtime::new().unwrap())`). -/
def BlockingProvider.new {ε : Type} (provider : Middleware ε)
    (handle_current_ok : Bool) (c : Nat) : BlockingProvider ε × Nat :=
  if handle_current_ok then
    ({ provider := provider, runtime := none }, c)
  else
    let (r, c') := Runtime.new c
    ({ provider := provider, runtime := some r }, c')

/-- `impl Clone for BlockingProvider`: the client handle is duplicated with
shared ownership (modelled as the same call table), and a brand-new runtime is
created exactly when the original owns one
(`self.runtime.as_ref().map(|_| Runtime::new().unwrap())`). -/
def BlockingProvider.clone {ε : Type} (s : BlockingProvider ε) (c : Nat) :
    BlockingProvider ε × Nat :=
  match s.runtime with
  | some _ =>
    let (r, c') := Runtime.new c
    ({ provider := s.provider, runtime := some r }, c')
  | none => ({ provider := s.provider, runtime := none }, c)

/-- `BlockingProvider::block_on`: drives the work to completion on the owned
runtime when one exists, otherwise on `futures::executor::block_on`; since the
work is already a resolved value in this model, both branches return it. -/
def BlockingProvider.block_on {ε : Type} {α : Type} (s : BlockingProvider ε)
    (f : α) : α :=
  match s.runtime with
  | some _ => f
  | none => f

/-- `tokio::try_join!` on two sub-requests: fail-fast, returning a failing
sub-request's error, and a pair only when both succeed. -/
def try_join2 {ε α β : Type} (a : Except ε α) (b : Except ε β) :
    Except ε (α × β) :=
  match a with
  | Except.error e => Except.error e
  | Except.ok x =>
    match b with
    | Except.error e => Except.error e
    | Except.ok y => Except.ok (x, y)

/-- `tokio::try_join!` on three sub-requests: fail-fast, returning a failing
sub-request's error, and a triple only when all three succeed. -/
def try_join3 {ε α β γ : Type} (a : Except ε α) (b : Except ε β)
    (c : Except ε γ) : Except ε (α × β × γ) :=
  match a with
  | Except.error e => Except.error e
  | Except.ok x =>
    match b with
    | Except.error e => Except.error e
    | Except.ok y =>
      match c with
      | Except.error e => Except.error e
      | Except.ok z => Except.ok (x, y, z)

/-- The `eyre::Result` error space of the joined operations: either a client
error passed through (`?` on the `try_join!` result) or the synthesized
"block ... not found" report. -/
inductive EyreError (ε : Type) where
  | client (e : ε)
  | blockNotFound (bid : BlockId)
deriving DecidableEq, Repr

/-- `block_id.map(Into::into).unwrap_or(BlockId::Number(BlockNumber::Latest))`:
a missing block identifier defaults to the symbolic latest block. -/
def resolve_block_id (block_id : Option BlockId) : BlockId :=
  block_id.getD (BlockId.number BlockNumber.latest)

/-- `BlockingProvider::block_and_chainid`: joins `get_block` and `get_chainid`,
passes a sub-request failure through as a client error, and synthesizes the
"block not found" error when the block request succeeds with no block. -/
def BlockingProvider.block_and_chainid {ε : Type} (s : BlockingProvider ε)
    (block_id : Option BlockId) : Except (EyreError ε) (Block × U256) :=
  let bid := resolve_block_id block_id
  match s.block_on (try_join2 (s.provider.get_block bid) s.provider.get_chainid) with
  | Except.error e => Except.error (EyreError.client e)
  | Except.ok (ob, chain_id) =>
    match ob with
    | none => Except.error (EyreError.blockNotFound bid)
    | some block => Except.ok (block, chain_id)

/-- `BlockingProvider::get_account`: joins `get_balance`,
`get_transaction_count` and `get_code` (requested in that order), passes a
sub-request failure through as a client error, and returns the tuple reordered
as `(nonce, balance, code)`. -/
def BlockingProvider.get_account {ε : Type} (s : BlockingProvider ε)
    (address : Address) (block_id : Option BlockId) :
    Except (EyreError ε) (U256 × U256 × Bytes) :=
  match s.block_on (try_join3 (s.provider.get_balance address block_id)
      (s.provider.get_transaction_count address block_id)
      (s.provider.get_code address block_id)) with
  | Except.error e => Except.error (EyreError.client e)
  | Except.ok (balance, nonce, code) => Except.ok (nonce, balance, code)

/-- `BlockingProvider::get_block_number`: single pass-through request. -/
def BlockingProvider.get_block_number {ε : Type} (s : BlockingProvider ε) :
    Except ε U64 :=
  s.block_on s.provider.get_block_number

/-- `BlockingProvider::get_balance`: single pass-through request. -/
def BlockingProvider.get_balance {ε : Type} (s : BlockingProvider ε)
    (address : Address) (block : Option BlockId) : Except ε U256 :=
  s.block_on (s.provider.get_balance address block)

/-- `BlockingProvider::get_transaction_count`: single pass-through request. -/
def BlockingProvider.get_transaction_count {ε : Type} (s : BlockingProvider ε)
    (address : Address) (block : Option BlockId) : Except ε U256 :=
  s.block_on (s.provider.get_transaction_count address block)

/-- `BlockingProvider::get_code`: single pass-through request. -/
def BlockingProvider.get_code {ε : Type} (s : BlockingProvider ε)
    (address : Address) (block : Option BlockId) : Except ε Bytes :=
  s.block_on (s.provider.get_code address block)

/-- `BlockingProvider::get_storage_at`: single pass-through request. -/
def BlockingProvider.get_storage_at {ε : Type} (s : BlockingProvider ε)
    (address : Address) (slot : H256) (block : Option BlockId) :
    Except ε H256 :=
  s.block_on (s.provider.get_storage_at address slot block)

/-- The public query operations of the adapter, as one syntactic datatype (used
to state frame properties uniformly over every operation). -/
inductive Query where
  | blockAndChainId (block_id : Option BlockId)
  | getAccount (address : Address) (block_id : Option BlockId)
  | getBlockNumber
  | getBalance (address : Address) (block : Option BlockId)
  | getTransactionCount (address : Address) (block : Option BlockId)
  | getCode (address : Address) (block : Option BlockId)
  | getStorageAt (address : Address) (slot : H256) (block : Option BlockId)

/-- The result of one public query operation (the operations have different
result types, so they are collected in one sum). -/
inductive QueryResult (ε : Type) where
  | blockChain (r : Except (EyreError ε) (Block × U256))
  | account (r : Except (EyreError ε) (U256 × U256 × Bytes))
  | blockNumber (r : Except ε U64)
  | uint (r : Except ε U256)
  | bytes (r : Except ε Bytes)
  | word (r : Except ε H256)

/-- Every public operation takes the adapter by shared reference (`&self`);
modelled as explicit state passing, each operation returns its result together
with the adapter state after the call. -/
def runQuery {ε : Type} (s : BlockingProvider ε) : Query → QueryResult ε × BlockingProvider ε
  | Query.blockAndChainId block_id => (QueryResult.blockChain (s.block_and_chainid block_id), s)
  | Query.getAccount address block_id => (QueryResult.account (s.get_account address block_id), s)
  | Query.getBlockNumber => (QueryResult.blockNumber s.get_block_number, s)
  | Query.getBalance address block => (QueryResult.uint (s.get_balance address block), s)
  | Query.getTransactionCount address block => (QueryResult.uint (s.get_transaction_count address block), s)
  | Query.getCode address block => (QueryResult.bytes (s.get_code address block), s)
  | Query.getStorageAt address slot block => (QueryResult.word (s.get_storage_at address slot block), s)

/-- A concrete all-succeeding client over error type `Nat`, used to evaluate
the adapter's operations on explicit inputs. -/
def okClient : Middleware Nat where
  get_block := fun _ => Except.ok (some { hash := 7 })
  get_chainid := Except.ok 1
  get_balance := fun a _ => Except.ok (a + 100)
  get_transaction_count := fun a _ => Except.ok (a + 2)
  get_code := fun a _ => Except.ok [a]
  get_block_number := Except.ok 5
  get_storage_at := fun _ _ _ => Except.ok 0

/-- A concrete client whose block request succeeds but finds no block. -/
def missingBlockClient : Middleware Nat :=
  { okClient with get_block := fun _ => Except.ok none }

/-- A concrete client whose block request finds no block and whose chain-id
request fails with client error `42`. -/
def chainFailClient : Middleware Nat :=
  { missingBlockClient with get_chainid := Except.error 42 }

/-- A concrete client whose balance request fails with client error `9`. -/
def balanceFailClient : Middleware Nat :=
  { okClient with get_balance := fun _ _ => Except.error 9 }

/-- A concrete client reporting an account that does not exist on chain: zero
balance, zero nonce, empty code — all as successful responses. -/
def zeroAccountClient : Middleware Nat :=
  { okClient with
    get_balance := fun _ _ => Except.ok 0
    get_transaction_count := fun _ _ => Except.ok 0
    get_code := fun _ _ => Except.ok [] }

theorem block_on_id {ε α : Type} (s : BlockingProvider ε) (f : α) :
    s.block_on f = f := by
  unfold BlockingProvider.block_on
  cases s.runtime <;> rfl

/-- C4: after `new(client)`, the adapter owns a freshly created runtime if and
only if no ambient scheduler was active in the calling context
(`Handle::try_current()` failed); inside an active scheduler it owns none,
otherwise it owns the runtime freshly created from the next token. -/
theorem new_owns_runtime_iff_no_ambient {ε : Type} (provider : Middleware ε)
    (handle_current_ok : Bool) (c : Nat) :
    (BlockingProvider.new provider handle_current_ok c).1.provider = provider ∧
    (BlockingProvider.new provider handle_current_ok c).1.runtime
      = (if handle_current_ok then none else some ⟨c⟩) ∧
    ((BlockingProvider.new provider handle_current_ok c).1.runtime.isSome
      = !handle_current_ok) := by
  cases handle_current_ok <;>
    simp [BlockingProvider.new, Runtime.new]

/-- C5: `clone` shares the client handle, owns a runtime exactly when the
original does, and when it does the runtime is the freshly created instance,
distinct from the original's runtime (for any original runtime created from an
earlier token). -/
theorem clone_fresh_runtime {ε : Type} (s : BlockingProvider ε) (c : Nat) :
    (s.clone c).1.provider = s.provider ∧
    ((s.clone c).1.runtime.isSome = s.runtime.isSome) ∧
    (∀ r : Runtime, s.runtime = some r → r.id < c →
      ∃ r' : Runtime, (s.clone c).1.runtime = some r' ∧ r' ≠ r) := by
  rcases s with ⟨p, rt⟩
  cases rt with
  | none =>
    refine ⟨rfl, rfl, ?_⟩
    intro r hr
    exact absurd hr (by simp)
  | some r0 =>
    refine ⟨rfl, rfl, ?_⟩
    intro r hr hlt
    refine ⟨⟨c⟩, rfl, ?_⟩
    intro hcontra
    rw [← hcontra] at hlt
    simp at hlt

/-- C6: every single-request operation returns exactly the underlying client
call's result: the success value unchanged, or the client's own error value
unchanged, of the client's own error type `ε`. -/
theorem single_request_pass_through {ε : Type} (s : BlockingProvider ε)
    (address : Address) (slot : H256) (block : Option BlockId) :
    s.get_block_number = s.provider.get_block_number ∧
    s.get_balance address block = s.provider.get_balance address block ∧
    s.get_transaction_count address block
      = s.provider.get_transaction_count address block ∧
    s.get_code address block = s.provider.get_code address block ∧
    s.get_storage_at address slot block
      = s.provider.get_storage_at address slot block := by
  refine ⟨?_, ?_, ?_, ?_, ?_⟩ <;>
    simp [BlockingProvider.get_block_number, BlockingProvider.get_balance,
      BlockingProvider.get_transaction_count, BlockingProvider.get_code,
      BlockingProvider.get_storage_at, block_on_id]

/-- C7: called with no block identifier, `block_and_chainid` resolves it to the
symbolic latest block and behaves exactly as if called with that identifier. -/
theorem block_and_chainid_default_latest {ε : Type} (s : BlockingProvider ε) :
    resolve_block_id none = BlockId.number BlockNumber.latest ∧
    s.block_and_chainid none
      = s.block_and_chainid (some (BlockId.number BlockNumber.latest)) :=
  ⟨rfl, rfl⟩

/-- C1 (amended: provided the joined chain-id sub-request also succeeds): when
the client's get-block call succeeds but returns no block and the chain-id call
succeeds, `block_and_chainid` fails with the explicit synthesized
"block not found" error, an error kind distinct from every passed-through
client error; and it returns a pair only when the block exists. -/
theorem block_and_chainid_not_found {ε : Type} (s : BlockingProvider ε)
    (block_id : Option BlockId) :
    (∀ cid : U256,
      s.provider.get_block (resolve_block_id block_id) = Except.ok none →
      s.provider.get_chainid = Except.ok cid →
      s.block_and_chainid block_id
        = Except.error (EyreError.blockNotFound (resolve_block_id block_id))) ∧
    (∀ e : ε,
      EyreError.blockNotFound (resolve_block_id block_id) ≠ EyreError.client e) ∧
    (∀ (b : Block) (cid : U256),
      s.block_and_chainid block_id = Except.ok (b, cid) →
      s.provider.get_block (resolve_block_id block_id) = Except.ok (some b)) := by
  refine ⟨?_, ?_, ?_⟩
  · intro cid hb hc
    simp [BlockingProvider.block_and_chainid, block_on_id, try_join2, hb, hc]
  · intro e h
    exact EyreError.noConfusion h
  · intro b cid h
    simp only [BlockingProvider.block_and_chainid, block_on_id] at h
    cases hb : s.provider.get_block (resolve_block_id block_id) with
    | error e => rw [hb] at h; simp [try_join2] at h
    | ok ob =>
      cases hc : s.provider.get_chainid with
      | error e => rw [hb, hc] at h; simp [try_join2] at h
      | ok cid' =>
        rw [hb, hc] at h
        cases ob with
        | none => simp [try_join2] at h
        | some blk =>
          simp [try_join2] at h
          rw [h.1]

/-- C1 counterexample: with a client whose get-block call succeeds with no
block but whose chain-id call fails with client error `42`, the claim's
antecedent holds yet `block_and_chainid` fails with the passed-through client
error, not with the synthesized "block not found" error. -/
theorem block_and_chainid_not_found_counterexample :
    Middleware.get_block chainFailClient (resolve_block_id none) = Except.ok none ∧
    BlockingProvider.block_and_chainid
        { provider := chainFailClient, runtime := none } none
      = Except.error (EyreError.client 42) ∧
    BlockingProvider.block_and_chainid
        { provider := chainFailClient, runtime := none } none
      ≠ Except.error (EyreError.blockNotFound (resolve_block_id none)) := by
  refine ⟨rfl, rfl, ?_⟩
  intro h
  rw [show BlockingProvider.block_and_chainid
      { provider := chainFailClient, runtime := none } none
      = Except.error (EyreError.client 42) from rfl] at h
  simp at h

/-- C1 witness: with a client finding no block but answering chain-id `1`,
`block_and_chainid` fails with the synthesized "block not found" error. -/
theorem block_and_chainid_not_found_witness :
    BlockingProvider.block_and_chainid
        { provider := missingBlockClient, runtime := none } none
      = Except.error (EyreError.blockNotFound (resolve_block_id none)) :=
  (block_and_chainid_not_found
      { provider := missingBlockClient, runtime := none } none).1 1 rfl rfl

/-- C2: when the three sub-requests succeed, `get_account` (which requests
balance, nonce, code in that order) returns the tuple reordered as
`(nonce, balance, code)`: the first component is the client's
transaction-count result, the second the client's balance result, the third
the client's code result. -/
theorem get_account_tuple_order {ε : Type} (s : BlockingProvider ε)
    (address : Address) (block_id : Option BlockId)
    (bal n : U256) (c : Bytes)
    (hb : s.provider.get_balance address block_id = Except.ok bal)
    (hn : s.provider.get_transaction_count address block_id = Except.ok n)
    (hc : s.provider.get_code address block_id = Except.ok c) :
    s.get_account address block_id = Except.ok (n, bal, c) := by
  simp [BlockingProvider.get_account, block_on_id, try_join3, hb, hn, hc]

/-- C2 witness: at address `3`, the concrete client reports balance `103`,
nonce `5`, code `[3]`, and `get_account` returns `(5, 103, [3])`. -/
theorem get_account_tuple_order_witness :
    BlockingProvider.get_account { provider := okClient, runtime := none } 3 none
      = Except.ok (5, 103, [3]) :=
  get_account_tuple_order { provider := okClient, runtime := none } 3 none
    103 5 [3] rfl rfl rfl

/-- C3: the joined operations are fail-fast: whenever a sub-request fails, the
whole operation fails with that sub-request's error wrapped as a client error
and no tuple is returned; and a value is returned only when every sub-request
succeeded. -/
theorem joined_fail_fast {ε : Type} (s : BlockingProvider ε)
    (block_id : Option BlockId) (address : Address) (b : Option BlockId) :
    (∀ e : ε, s.provider.get_block (resolve_block_id block_id) = Except.error e →
      s.block_and_chainid block_id = Except.error (EyreError.client e)) ∧
    (∀ (e : ε) (ob : Option Block),
      s.provider.get_block (resolve_block_id block_id) = Except.ok ob →
      s.provider.get_chainid = Except.error e →
      s.block_and_chainid block_id = Except.error (EyreError.client e)) ∧
    (∀ e : ε, s.provider.get_balance address b = Except.error e →
      s.get_account address b = Except.error (EyreError.client e)) ∧
    (∀ (e : ε) (x : U256), s.provider.get_balance address b = Except.ok x →
      s.provider.get_transaction_count address b = Except.error e →
      s.get_account address b = Except.error (EyreError.client e)) ∧
    (∀ (e : ε) (x y : U256), s.provider.get_balance address b = Except.ok x →
      s.provider.get_transaction_count address b = Except.ok y →
      s.provider.get_code address b = Except.error e →
      s.get_account address b = Except.error (EyreError.client e)) ∧
    (∀ v, s.block_and_chainid block_id = Except.ok v →
      (∃ ob, s.provider.get_block (resolve_block_id block_id) = Except.ok ob) ∧
      (∃ cid, s.provider.get_chainid = Except.ok cid)) ∧
    (∀ v, s.get_account address b = Except.ok v →
      (∃ x, s.provider.get_balance address b = Except.ok x) ∧
      (∃ y, s.provider.get_transaction_count address b = Except.ok y) ∧
      (∃ z, s.provider.get_code address b = Except.ok z)) := by
  refine ⟨?_, ?_, ?_, ?_, ?_, ?_, ?_⟩
  · intro e hb
    simp [BlockingProvider.block_and_chainid, block_on_id, try_join2, hb]
  · intro e ob hb hc
    cases ob <;>
      simp [BlockingProvider.block_and_chainid, block_on_id, try_join2, hb, hc]
  · intro e hb
    simp [BlockingProvider.get_account, block_on_id, try_join3, hb]
  · intro e x hb hn
    simp [BlockingProvider.get_account, block_on_id, try_join3, hb, hn]
  · intro e x y hb hn hc
    simp [BlockingProvider.get_account, block_on_id, try_join3, hb, hn, hc]
  · intro v h
    simp only [BlockingProvider.block_and_chainid, block_on_id] at h
    cases hb : s.provider.get_block (resolve_block_id block_id) with
    | error e => rw [hb] at h; simp [try_join2] at h
    | ok ob =>
      cases hc : s.provider.get_chainid with
      | error e => rw [hb, hc] at h; simp [try_join2] at h
      | ok cid => exact ⟨⟨ob, rfl⟩, ⟨cid, rfl⟩⟩
  · intro v h
    simp only [BlockingProvider.get_account, block_on_id] at h
    cases hb : s.provider.get_balance address b with
    | error e => rw [hb] at h; simp [try_join3] at h
    | ok x =>
      cases hn : s.provider.get_transaction_count address b with
      | error e => rw [hb, hn] at h; simp [try_join3] at h
      | ok y =>
        cases hc : s.provider.get_code address b with
        | error e => rw [hb, hn, hc] at h; simp [try_join3] at h
        | ok z => exact ⟨⟨x, rfl⟩, ⟨y, rfl⟩, ⟨z, rfl⟩⟩

/-- C3 witness: with a client whose balance sub-request fails with client
error `9`, `get_account` fails with exactly that error and returns no tuple. -/
theorem joined_fail_fast_witness :
    BlockingProvider.get_account
        { provider := balanceFailClient, runtime := none } 0 none
      = Except.error (EyreError.client 9) :=
  (joined_fail_fast { provider := balanceFailClient, runtime := none }
      none 0 none).2.2.1 9 rfl

/-- C8: the nonce and balance components of a successful `get_account` result
equal the values `get_transaction_count` and `get_balance` return for the same
address and block. -/
theorem get_account_components_consistent {ε : Type} (s : BlockingProvider ε)
    (address : Address) (block_id : Option BlockId)
    (n bal : U256) (c : Bytes)
    (h : s.get_account address block_id = Except.ok (n, bal, c)) :
    s.get_transaction_count address block_id = Except.ok n ∧
    s.get_balance address block_id = Except.ok bal := by
  simp only [BlockingProvider.get_account, block_on_id] at h
  cases hb : s.provider.get_balance address block_id with
  | error e => rw [hb] at h; simp [try_join3] at h
  | ok x =>
    cases hn : s.provider.get_transaction_count address block_id with
    | error e => rw [hb, hn] at h; simp [try_join3] at h
    | ok y =>
      cases hc : s.provider.get_code address block_id with
      | error e => rw [hb, hn, hc] at h; simp [try_join3] at h
      | ok z =>
        rw [hb, hn, hc] at h
        simp [try_join3] at h
        refine ⟨?_, ?_⟩
        · rw [BlockingProvider.get_transaction_count, block_on_id, hn, h.1]
        · rw [BlockingProvider.get_balance, block_on_id, hb, h.2.1]

/-- C8 witness: at address `3`, `get_account` returns `(5, 103, [3])` and the
single-request operations return nonce `5` and balance `103`. -/
theorem get_account_components_consistent_witness :
    BlockingProvider.get_transaction_count
        { provider := okClient, runtime := none } 3 none = Except.ok 5 ∧
    BlockingProvider.get_balance
        { provider := okClient, runtime := none } 3 none = Except.ok 103 :=
  get_account_components_consistent { provider := okClient, runtime := none }
    3 none 5 103 [3] rfl

/-- C10: `get_account` never synthesizes the "block not found" error: for every
client and address, including an absent account reported with zero values, its
result is never the not-found error kind, and when all three sub-requests
succeed it returns exactly the values the client reports. -/
theorem get_account_never_not_found {ε : Type} (s : BlockingProvider ε)
    (address : Address) (block_id : Option BlockId) :
    (∀ bid : BlockId,
      s.get_account address block_id
        ≠ Except.error (EyreError.blockNotFound bid)) ∧
    (∀ (bal n : U256) (c : Bytes),
      s.provider.get_balance address block_id = Except.ok bal →
      s.provider.get_transaction_count address block_id = Except.ok n →
      s.provider.get_code address block_id = Except.ok c →
      s.get_account address block_id = Except.ok (n, bal, c)) := by
  constructor
  · intro bid h
    simp only [BlockingProvider.get_account, block_on_id] at h
    cases htj : try_join3 (s.provider.get_balance address block_id)
        (s.provider.get_transaction_count address block_id)
        (s.provider.get_code address block_id) with
    | error e => rw [htj] at h; simp at h
    | ok v => rw [htj] at h; simp at h
  · intro bal n c hb hn hc
    simp [BlockingProvider.get_account, block_on_id, try_join3, hb, hn, hc]

/-- C10 witness: a client reporting an absent account (zero balance, zero
nonce, empty code) makes `get_account` return those values successfully, and
the result is not the "block not found" error. -/
theorem get_account_never_not_found_witness :
    BlockingProvider.get_account
        { provider := zeroAccountClient, runtime := none } 0 none
      = Except.ok (0, 0, []) ∧
    BlockingProvider.get_account
        { provider := zeroAccountClient, runtime := none } 0 none
      ≠ Except.error
          (EyreError.blockNotFound (BlockId.number BlockNumber.latest)) :=
  ⟨(get_account_never_not_found
      { provider := zeroAccountClient, runtime := none } 0 none).2
      0 0 [] rfl rfl rfl,
   (get_account_never_not_found
      { provider := zeroAccountClient, runtime := none } 0 none).1
      (BlockId.number BlockNumber.latest)⟩

/-- C5 witness: cloning an adapter owning runtime `0` with next token `1`
yields a clone owning a runtime distinct from runtime `0`. -/
theorem clone_fresh_runtime_witness :
    (0 : Nat) < 1 ∧
    ∃ r' : Runtime,
      (BlockingProvider.clone
          { provider := okClient, runtime := some ⟨0⟩ } 1).1.runtime
        = some r' ∧ r' ≠ ⟨0⟩ :=
  ⟨Nat.zero_lt_one,
   (clone_fresh_runtime { provider := okClient, runtime := some ⟨0⟩ } 1).2.2
     ⟨0⟩ rfl Nat.zero_lt_one⟩

/-- C9: every public query operation leaves the adapter unchanged: the adapter
state after any operation equals the state before it (the operations take the
adapter by shared reference and mutate nothing). -/
theorem query_preserves_adapter {ε : Type} (s : BlockingProvider ε)
    (q : Query) :
    (runQuery s q).2 = s := by
  cases q <;> rfl

end EvmAdapters
